import Mathlib

/-!
Verification of the SevenStar Dispatch planner (src/src/App.jsx).

The embedding below translates the load-planning, store and
distance-estimation logic of the source into Lean. Quantities and ids are
integers in the source (gallon counts, Date.now() ids), so they are
modelled as Int / Nat. The React useState setters create fresh arrays
(map / filter / spread), so every operation is embedded as a pure
function from the old collection (or store) to the new one.
-/

namespace SevenStar

/-- Fuel grade enumeration, as offered by the grade select inputs
(Regular, Premium, Diesel). -/
inductive Grade where
  | regular
  | premium
  | diesel
deriving DecidableEq, Repr

/-- A line item of a prospective load: in the source an object
with fields grade and qty, appended by addItem. -/
structure LoadItem where
  grade : Grade
  qty : Int
deriving DecidableEq, Repr

/-- Load status in the source is the string "Planned" or "Delivered". -/
inductive LoadStatus where
  | planned
  | delivered
deriving DecidableEq, Repr

/-- A load record as built by handleCreateLoad: id, siteId, driverId,
items, status, createdAt; markLoadDelivered later adds deliveredAt.
Timestamps are modelled as Nat (the source uses ISO strings from
new Date(); only freshness and equality matter here). -/
structure Load where
  id : Nat
  siteId : Nat
  driverId : Nat
  items : List LoadItem
  status : LoadStatus
  createdAt : Nat
  deliveredAt : Option Nat
deriving DecidableEq, Repr

/-- A tank owned by a site (id, grade, capacity in gallons). -/
structure Tank where
  id : Nat
  grade : Grade
  capacity : Int
deriving DecidableEq, Repr

/-- A fueling site (id, name, address, phone, tanks). -/
structure Site where
  id : Nat
  name : String
  address : String
  phone : String
  tanks : List Tank
deriving DecidableEq, Repr

/-- A driver (id, name, phone). -/
structure Driver where
  id : Nat
  name : String
  phone : String
deriving DecidableEq, Repr

/-- A patch passed to updateSite: the source merges it into the site
with object spread, so each field may be present (overriding) or absent
(keeping the old value). Call sites never patch the id or the tanks. -/
structure SitePatch where
  name : Option String := none
  address : Option String := none
  phone : Option String := none
deriving DecidableEq, Repr

/-- Object-spread merge of a SitePatch into a Site, embedding the
source expression with-spread of s then patch. -/
def Site.applyPatch (s : Site) (p : SitePatch) : Site :=
  { id := s.id
    name := p.name.getD s.name
    address := p.address.getD s.address
    phone := p.phone.getD s.phone
    tanks := s.tanks }

/-- A patch passed to updateDriver (source merges with object spread). -/
structure DriverPatch where
  name : Option String := none
  phone : Option String := none
deriving DecidableEq, Repr

/-- Object-spread merge of a DriverPatch into a Driver. -/
def Driver.applyPatch (d : Driver) (p : DriverPatch) : Driver :=
  { id := d.id
    name := p.name.getD d.name
    phone := p.phone.getD d.phone }

/-- The in-memory store of useStore: three independent useState
collections (sites, drivers, loads). -/
structure Store where
  sites : List Site
  drivers : List Driver
  loads : List Load
deriving DecidableEq, Repr

/-- addSite: setSites s-spread-plus-site, i.e. append. -/
def addSite (site : Site) (st : Store) : Store :=
  { st with sites := st.sites ++ [site] }

/-- updateSite: map over sites, merging the patch into the site whose
id matches. -/
def updateSite (id : Nat) (patch : SitePatch) (st : Store) : Store :=
  { st with sites := st.sites.map (fun s => if s.id = id then s.applyPatch patch else s) }

/-- deleteSite: filter sites by id not equal to the argument. -/
def deleteSite (id : Nat) (st : Store) : Store :=
  { st with sites := st.sites.filter (fun s => s.id != id) }

/-- addTankToSite: map over sites, appending the tank to the tanks of
the site whose id matches. -/
def addTankToSite (siteId : Nat) (tank : Tank) (st : Store) : Store :=
  { st with sites := st.sites.map (fun s => if s.id = siteId then { s with tanks := s.tanks ++ [tank] } else s) }

/-- addDriver: append to the drivers list. -/
def addDriver (d : Driver) (st : Store) : Store :=
  { st with drivers := st.drivers ++ [d] }

/-- updateDriver: map over drivers, merging the patch into the driver
whose id matches. -/
def updateDriver (id : Nat) (patch : DriverPatch) (st : Store) : Store :=
  { st with drivers := st.drivers.map (fun d => if d.id = id then d.applyPatch patch else d) }

/-- deleteDriver: filter drivers by id not equal to the argument. -/
def deleteDriver (id : Nat) (st : Store) : Store :=
  { st with drivers := st.drivers.filter (fun d => d.id != id) }

/-- addLoad: append to the loads list. -/
def addLoad (l : Load) (st : Store) : Store :=
  { st with loads := st.loads ++ [l] }

/-- markLoadDelivered: map over loads, setting status Delivered and
deliveredAt to the current time on the load whose id matches. The
source takes the timestamp from new Date(); here it is the parameter
now. There is no status check: the update applies whatever the current
status is. -/
def markLoadDelivered (id : Nat) (now : Nat) (st : Store) : Store :=
  { st with loads := st.loads.map (fun l => if l.id = id then { l with status := LoadStatus.delivered, deliveredAt := some now } else l) }

/-- The errors surfaced by the planner via toast.error: the Qty? message,
the Exceeds 8,800 gal message, and the Fill all fields message. -/
inductive PlannerError where
  | qtyError
  | capacityError
  | validationError
deriving DecidableEq, Repr

/-- The fixed capacity ceiling maxGal = 8800 of PlannerPage. -/
def maxGal : Int := 8800

/-- totalQty: the reduce over items summing qty, as in the useMemo of
PlannerPage. -/
def totalQty (items : List LoadItem) : Int :=
  items.foldl (fun sum i => sum + i.qty) 0

/-- addItem of PlannerPage as a pure function on the item list. The
source guard bang-qty is true exactly when the (integer) qty is zero;
the second guard rejects when totalQty plus qty exceeds maxGal; otherwise
setItems appends one new item to a fresh array. -/
def addItem (items : List LoadItem) (grade : Grade) (qty : Int) : Except PlannerError (List LoadItem) :=
  if qty = 0 then Except.error PlannerError.qtyError
  else if totalQty items + qty > maxGal then Except.error PlannerError.capacityError
  else Except.ok (items ++ [{ grade := grade, qty := qty }])

/-- handleCreateLoad of PlannerPage as a pure function (finalize in the
spec). The source rejects when siteId or driverId is unset (falsy select
value) or items is empty, and otherwise builds a load with status
Planned, a fresh id (Date.now(), here the parameter id) and the current
timestamp (parameter now). -/
def finalize (siteId driverId : Option Nat) (items : List LoadItem) (id now : Nat) : Except PlannerError Load :=
  match siteId, driverId with
  | some s, some d =>
      if items.length = 0 then Except.error PlannerError.validationError
      else Except.ok { id := id, siteId := s, driverId := d, items := items, status := LoadStatus.planned, createdAt := now, deliveredAt := none }
  | _, _ => Except.error PlannerError.validationError

/-- An item list built by a sequence of addItem requests starting from
the empty list, keeping the previous list whenever a request fails
(the source leaves the items state untouched on toast.error). -/
def buildItems (reqs : List (Grade × Int)) : List LoadItem :=
  reqs.foldl (fun items r =>
    match addItem items r.1 r.2 with
    | Except.ok l => l
    | Except.error _ => items) []

theorem totalQty_append (items : List LoadItem) (it : LoadItem) :
    totalQty (items ++ [it]) = totalQty items + it.qty := by
  unfold totalQty
  rw [List.foldl_append]
  rfl

/-- C1: with a positive quantity, addItem succeeds exactly when the
existing total plus the new quantity is at most the 8,800 ceiling (the
comparison is strictly greater-than, so an exact ceiling total is
accepted), and when the total exceeds the ceiling it fails with the
capacity error. -/
theorem addItem_capacity (items : List LoadItem) (g : Grade) (q : Int) (hq : 0 < q) :
    ((∃ l, addItem items g q = Except.ok l) ↔ totalQty items + q ≤ maxGal) ∧
      (maxGal < totalQty items + q → addItem items g q = Except.error PlannerError.capacityError) := by
  have hq0 : ¬ q = 0 := by omega
  constructor
  · constructor
    · rintro ⟨l, hl⟩
      unfold addItem at hl
      rw [if_neg hq0] at hl
      by_contra hgt
      rw [if_pos (by omega)] at hl
      exact absurd hl (by simp)
    · intro hle
      refine ⟨items ++ [{ grade := g, qty := q }], ?_⟩
      unfold addItem
      rw [if_neg hq0, if_neg (by omega)]
  · intro hgt
    unfold addItem
    rw [if_neg hq0, if_pos (by omega)]

/-- C1 witness: after items of 5,000 and 3,000 gallons (total 8,000), a
further 801 gallons is rejected with the capacity error, while 800 more
gallons (exactly the ceiling) would be accepted. -/
theorem addItem_capacity_witness :
    addItem [{ grade := Grade.regular, qty := 5000 }, { grade := Grade.regular, qty := 3000 }] Grade.regular 801 = Except.error PlannerError.capacityError ∧
      addItem [{ grade := Grade.regular, qty := 5000 }, { grade := Grade.regular, qty := 3000 }] Grade.regular 800 =
        Except.ok [{ grade := Grade.regular, qty := 5000 }, { grade := Grade.regular, qty := 3000 }, { grade := Grade.regular, qty := 800 }] := by
  constructor
  · exact (addItem_capacity _ Grade.regular 801 (by norm_num)).2 (by decide)
  · rfl

/-- C2 counterexample: a negative quantity is not rejected. At quantity
-1 on the empty list the source guard bang-qty is false (-1 is truthy)
and the capacity guard passes, so the item is appended. -/
theorem addItem_accepts_negative :
    addItem [] Grade.regular (-1) = Except.ok [{ grade := Grade.regular, qty := -1 }] := by
  rfl

/-- C2 amended: addItem rejects with the Qty? error exactly when the
quantity is zero; a negative quantity passes that guard (and, passing
the capacity comparison, is appended). -/
theorem addItem_qty_guard (items : List LoadItem) (g : Grade) (q : Int) :
    addItem items g q = Except.error PlannerError.qtyError ↔ q = 0 := by
  unfold addItem
  by_cases h0 : q = 0
  · simp [h0]
  · rw [if_neg h0]
    by_cases hc : totalQty items + q > maxGal
    · rw [if_pos hc]
      simp [h0]
    · rw [if_neg hc]
      simp [h0]

/-- C3: addItem is all-or-nothing: it either fails (returning an error
and leaving the callers list untouched, the embedding being pure like
the source setItems which builds a fresh array) or succeeds returning
the old list with exactly one new item appended at the end. -/
theorem addItem_all_or_nothing (items : List LoadItem) (g : Grade) (q : Int) :
    (∃ e, addItem items g q = Except.error e) ∨
      addItem items g q = Except.ok (items ++ [{ grade := g, qty := q }]) := by
  unfold addItem
  by_cases h0 : q = 0
  · exact Or.inl ⟨PlannerError.qtyError, by rw [if_pos h0]⟩
  · rw [if_neg h0]
    by_cases hc : totalQty items + q > maxGal
    · exact Or.inl ⟨PlannerError.capacityError, by rw [if_pos hc]⟩
    · exact Or.inr (by rw [if_neg hc])

/-- C4: finalize fails with the validation error exactly when the site
is unset, the driver is unset, or the item list is empty; otherwise it
succeeds and the resulting load carries status Planned, the fresh id,
the given site, driver and items, the creation timestamp, and no
delivery timestamp. -/
theorem finalize_spec (siteId driverId : Option Nat) (items : List LoadItem) (id now : Nat) :
    (finalize siteId driverId items id now = Except.error PlannerError.validationError ↔
      (siteId = none ∨ driverId = none ∨ items = [])) ∧
      (∀ s d, siteId = some s → driverId = some d → items ≠ [] →
        finalize siteId driverId items id now =
          Except.ok { id := id, siteId := s, driverId := d, items := items, status := LoadStatus.planned, createdAt := now, deliveredAt := none }) := by
  constructor
  · cases siteId with
    | none => simp [finalize]
    | some s =>
      cases driverId with
      | none => simp [finalize]
      | some d =>
        simp only [finalize]
        by_cases he : items = []
        · simp [he]
        · rw [if_neg (by simpa [List.length_eq_zero] using he)]
          simp [he]
  · intro s d hs hd he
    subst hs; subst hd
    simp only [finalize]
    rw [if_neg (by simpa [List.length_eq_zero] using he)]

/-- C4 witness: with site 101, driver 1 and one 5,000-gallon item,
finalize produces the Planned load with the given fields. -/
theorem finalize_spec_witness :
    finalize (some 101) (some 1) [{ grade := Grade.regular, qty := 5000 }] 7 9 =
      Except.ok { id := 7, siteId := 101, driverId := 1, items := [{ grade := Grade.regular, qty := 5000 }], status := LoadStatus.planned, createdAt := 9, deliveredAt := none } :=
  (finalize_spec (some 101) (some 1) _ 7 9).2 101 1 rfl rfl (by decide)

theorem buildItems_go_le (reqs : List (Grade × Int)) (items : List LoadItem)
    (h : totalQty items ≤ maxGal) :
    totalQty (reqs.foldl (fun items r =>
      match addItem items r.1 r.2 with
      | Except.ok l => l
      | Except.error _ => items) items) ≤ maxGal := by
  induction reqs generalizing items with
  | nil => simpa using h
  | cons r rest ih =>
    rw [List.foldl_cons]
    apply ih
    unfold addItem
    by_cases h0 : r.2 = 0
    · rw [if_pos h0]
      exact h
    · rw [if_neg h0]
      by_cases hc : totalQty items + r.2 > maxGal
      · rw [if_pos hc]
        exact h
      · rw [if_neg hc]
        simp only
        rw [totalQty_append]
        show totalQty items + r.2 ≤ maxGal
        omega

theorem totalQty_buildItems_le (reqs : List (Grade × Int)) :
    totalQty (buildItems reqs) ≤ maxGal :=
  buildItems_go_le reqs [] (by decide)

/-- C5: every load finalized from an item list built by successive
addItem calls starting from the empty list has a total quantity of at
most the 8,800-gallon ceiling, and the only operation that later touches
loads in place, markLoadDelivered, changes no item list, so the
invariant holds after every operation. -/
theorem load_capacity_invariant (reqs : List (Grade × Int)) (siteId driverId : Option Nat)
    (id now : Nat) (load : Load)
    (h : finalize siteId driverId (buildItems reqs) id now = Except.ok load) :
    totalQty load.items ≤ maxGal ∧
      ∀ (i2 now2 : Nat) (st : Store),
        (markLoadDelivered i2 now2 st).loads.map (fun l => totalQty l.items) =
          st.loads.map (fun l => totalQty l.items) := by
  constructor
  · have hitems : load.items = buildItems reqs := by
      cases siteId with
      | none => exact absurd h (by simp [finalize])
      | some s =>
        cases driverId with
        | none => exact absurd h (by simp [finalize])
        | some d =>
          simp only [finalize] at h
          by_cases he : (buildItems reqs).length = 0
          · rw [if_pos he] at h
            exact absurd h (by simp)
          · rw [if_neg he] at h
            have := Except.ok.inj h
            rw [← this]
    rw [hitems]
    exact totalQty_buildItems_le reqs
  · intro i2 now2 st
    unfold markLoadDelivered
    simp only [List.map_map]
    apply List.map_congr_left
    intro l _
    by_cases hl : l.id = i2 <;> simp [hl]

/-- C5 witness: finalizing the list built from a single 5,000-gallon
request yields a load whose total quantity is within the ceiling. -/
theorem load_capacity_invariant_witness :
    totalQty ({ id := 1, siteId := 101, driverId := 1, items := [{ grade := Grade.regular, qty := 5000 }], status := LoadStatus.planned, createdAt := 2, deliveredAt := none } : Load).items ≤ maxGal :=
  (load_capacity_invariant [(Grade.regular, 5000)] (some 101) (some 1) 1 2 _ (by rfl)).1

/-- A concrete already-delivered load used to exercise
markLoadDelivered on a Delivered load. -/
def deliveredLoad : Load :=
  { id := 1, siteId := 101, driverId := 1, items := [{ grade := Grade.regular, qty := 100 }], status := LoadStatus.delivered, createdAt := 2, deliveredAt := some 5 }

/-- C6 counterexample: applying markLoadDelivered at time 7 to a load
already delivered at time 5 is neither rejected (the operation is total
and returns a store, never an error) nor a no-op: the delivery
timestamp is overwritten, so the store changes. -/
theorem markLoadDelivered_twice_changes :
    markLoadDelivered 1 7 { sites := [], drivers := [], loads := [deliveredLoad] } ≠
      ({ sites := [], drivers := [], loads := [deliveredLoad] } : Store) := by
  decide

/-- C6 amended: a second markLoadDelivered on an already Delivered load
is not rejected and is not a full no-op: it keeps the status Delivered
and every other field, but overwrites the delivery timestamp with the
time of the second call. -/
theorem markLoadDelivered_redelivers (st : Store) (l : Load) (id now : Nat)
    (h1 : l.status = LoadStatus.delivered) (h2 : st.loads = [l]) (h3 : l.id = id) :
    (markLoadDelivered id now st).loads = [{ l with deliveredAt := some now }] := by
  unfold markLoadDelivered
  simp only [h2, List.map_cons, List.map_nil, h3, if_pos rfl]
  rw [← h1]
  simp

/-- C6 amended witness: re-delivering the load delivered at time 5 at
time 7 yields the same load with delivery timestamp 7. -/
theorem markLoadDelivered_redelivers_witness :
    (markLoadDelivered 1 7 { sites := [], drivers := [], loads := [deliveredLoad] }).loads =
      [{ deliveredLoad with deliveredAt := some 7 }] :=
  markLoadDelivered_redelivers _ deliveredLoad 1 7 rfl rfl rfl

theorem map_id_of_mem {α : Type} (l : List α) (f : α → α) (h : ∀ x ∈ l, f x = x) :
    l.map f = l := by
  induction l with
  | nil => rfl
  | cons a rest ih =>
    rw [List.map_cons, h a (List.mem_cons_self a rest), ih (fun x hx => h x (List.mem_cons_of_mem a hx))]

theorem filter_true_of_mem {α : Type} (l : List α) (p : α → Bool) (h : ∀ x ∈ l, p x = true) :
    l.filter p = l := by
  induction l with
  | nil => rfl
  | cons a rest ih =>
    rw [List.filter_cons, if_pos (h a (List.mem_cons_self a rest)), ih (fun x hx => h x (List.mem_cons_of_mem a hx))]

/-- C9: every store operation keyed by an id absent from its own
collection is a silent no-op: being a total function it raises no
error, and the store is returned exactly as it was. The site
operations (updateSite, deleteSite, addTankToSite) need the id absent
only from sites, the driver operations (updateDriver, deleteDriver)
only from drivers, and markLoadDelivered only from loads; an equal id
elsewhere in the store does not matter. -/
theorem missing_id_silent_noop (st : Store) (id : Nat) (p : SitePatch) (dp : DriverPatch)
    (tank : Tank) (now : Nat) :
    ((∀ s ∈ st.sites, s.id ≠ id) →
      updateSite id p st = st ∧ deleteSite id st = st ∧ addTankToSite id tank st = st) ∧
      ((∀ d ∈ st.drivers, d.id ≠ id) →
        updateDriver id dp st = st ∧ deleteDriver id st = st) ∧
      ((∀ l ∈ st.loads, l.id ≠ id) → markLoadDelivered id now st = st) := by
  refine ⟨fun hs => ⟨?_, ?_, ?_⟩, fun hd => ⟨?_, ?_⟩, fun hl => ?_⟩
  · unfold updateSite
    rw [map_id_of_mem _ _ (fun s hsm => if_neg (hs s hsm))]
  · unfold deleteSite
    rw [filter_true_of_mem _ _ (fun s hsm => by simpa using hs s hsm)]
  · unfold addTankToSite
    rw [map_id_of_mem _ _ (fun s hsm => if_neg (hs s hsm))]
  · unfold updateDriver
    rw [map_id_of_mem _ _ (fun d hdm => if_neg (hd d hdm))]
  · unfold deleteDriver
    rw [filter_true_of_mem _ _ (fun d hdm => by simpa using hd d hdm)]
  · unfold markLoadDelivered
    rw [map_id_of_mem _ _ (fun l hlm => if_neg (hl l hlm))]

/-- The initial store of useStore: one site (id 101, two tanks), one
driver (id 1), no loads. -/
def initialStore : Store :=
  { sites := [{ id := 101, name := "Shell - Clifton", address := "123 MLK Dr, Cincinnati OH", phone := "+15135559876", tanks := [{ id := 1, grade := Grade.regular, capacity := 10000 }, { id := 2, grade := Grade.premium, capacity := 8000 }] }]
    drivers := [{ id := 1, name := "R. Singh", phone := "+15135551234" }]
    loads := [] }

/-- C9 witness: on the initial store, markLoadDelivered keyed by id 1
is a no-op because no load has id 1, even though driver 1 exists; the
site and driver operations keyed by the absent id 999 likewise return
the store unchanged. -/
theorem missing_id_silent_noop_witness :
    markLoadDelivered 1 4 initialStore = initialStore ∧
      updateSite 999 {} initialStore = initialStore ∧ deleteSite 999 initialStore = initialStore ∧
      addTankToSite 999 { id := 3, grade := Grade.diesel, capacity := 5000 } initialStore = initialStore ∧
      updateDriver 999 {} initialStore = initialStore ∧ deleteDriver 999 initialStore = initialStore := by
  have h1 := (missing_id_silent_noop initialStore 1 {} {} { id := 3, grade := Grade.diesel, capacity := 5000 } 4).2.2 (by decide)
  have h999 := missing_id_silent_noop initialStore 999 {} {} { id := 3, grade := Grade.diesel, capacity := 5000 } 4
  have hs := h999.1 (by decide)
  have hd := h999.2.1 (by decide)
  exact ⟨h1, hs.1, hs.2.1, hs.2.2, hd.1, hd.2⟩

/-- C10: deleteSite and deleteDriver touch only their own collection.
The loads list is returned untouched, so a load referencing the deleted
site or driver survives unchanged (still carrying the deleted id) while
no site (respectively driver) with that id remains: the dangling
reference is observable. -/
theorem delete_preserves_loads (st : Store) (l : Load) (h : l ∈ st.loads) :
    (deleteSite l.siteId st).loads = st.loads ∧
      (deleteDriver l.driverId st).loads = st.loads ∧
      (deleteSite l.siteId st).drivers = st.drivers ∧
      (deleteDriver l.driverId st).sites = st.sites ∧
      l ∈ (deleteSite l.siteId st).loads ∧
      l ∈ (deleteDriver l.driverId st).loads ∧
      ((deleteSite l.siteId st).sites.all (fun s => s.id != l.siteId) = true) ∧
      ((deleteDriver l.driverId st).drivers.all (fun d => d.id != l.driverId) = true) := by
  refine ⟨rfl, rfl, rfl, rfl, h, h, ?_, ?_⟩
  · rw [List.all_eq_true]
    intro s hs
    simp only [deleteSite] at hs
    exact (List.mem_filter.mp hs).2
  · rw [List.all_eq_true]
    intro d hd
    simp only [deleteDriver] at hd
    exact (List.mem_filter.mp hd).2

/-- A planned load referencing site 101 and driver 1, used to observe
dangling references after deletion. -/
def plannedLoad : Load :=
  { id := 10, siteId := 101, driverId := 1, items := [{ grade := Grade.regular, qty := 5000 }], status := LoadStatus.planned, createdAt := 3, deliveredAt := none }

/-- A store holding the initial site and driver plus a planned load
that references both. -/
def storeWithLoad : Store :=
  { initialStore with loads := [plannedLoad] }

/-- C10 witness: deleting site 101 and driver 1 from a store whose only
load references both leaves the loads list unchanged, keeps the load
present, and removes every site and driver with the referenced id. -/
theorem delete_preserves_loads_witness :
    (deleteSite plannedLoad.siteId storeWithLoad).loads = storeWithLoad.loads ∧
      (deleteDriver plannedLoad.driverId storeWithLoad).loads = storeWithLoad.loads ∧
      plannedLoad ∈ (deleteSite plannedLoad.siteId storeWithLoad).loads ∧
      ((deleteSite plannedLoad.siteId storeWithLoad).sites.all (fun s => s.id != plannedLoad.siteId) = true) ∧
      ((deleteDriver plannedLoad.driverId storeWithLoad).drivers.all (fun d => d.id != plannedLoad.driverId) = true) := by
  have h := delete_preserves_loads storeWithLoad plannedLoad (by decide)
  exact ⟨h.1, h.2.1, h.2.2.2.2.1, h.2.2.2.2.2.2.1, h.2.2.2.2.2.2.2⟩

/-- A geographic point: the source passes [lon, lat] arrays to
haversineDistance. Exact real coordinates model the idealized
(exact-arithmetic) reading of the computation. -/
structure GeoPoint where
  lon : ℝ
  lat : ℝ

/-- Degree-to-radian conversion toRad of haversineDistance. -/
noncomputable def toRad (deg : ℝ) : ℝ :=
  deg * Real.pi / 180

/-- Real atan2, the two-argument arctangent used by the source via
Math.atan2 (signed zeros are not modelled). -/
noncomputable def atan2 (y x : ℝ) : ℝ :=
  if 0 < x then Real.arctan (y / x)
  else if x < 0 ∧ 0 ≤ y then Real.arctan (y / x) + Real.pi
  else if x < 0 ∧ y < 0 then Real.arctan (y / x) - Real.pi
  else if x = 0 ∧ 0 < y then Real.pi / 2
  else if x = 0 ∧ y < 0 then -(Real.pi / 2)
  else 0

/-- The haversine term a of haversineDistance:
sin(dLat/2)^2 + cos(toRad lat1) * cos(toRad lat2) * sin(dLon/2)^2. -/
noncomputable def hav (p1 p2 : GeoPoint) : ℝ :=
  Real.sin (toRad (p2.lat - p1.lat) / 2) ^ 2 +
    Real.cos (toRad p1.lat) * Real.cos (toRad p2.lat) * Real.sin (toRad (p2.lon - p1.lon) / 2) ^ 2

/-- haversineDistance over exact reals: R * c with R = 6371 and
c = 2 * atan2(sqrt a, sqrt(1 - a)). -/
noncomputable def haversineDistance (p1 p2 : GeoPoint) : ℝ :=
  6371 * (2 * atan2 (Real.sqrt (hav p1 p2)) (Real.sqrt (1 - hav p1 p2)))

/-- The result record of the estimate operation: distance in km and the
ETA in whole minutes. -/
structure Estimate where
  distanceKm : ℝ
  etaMinutes : ℤ

/-- estimate, as computed by handleETA generalized over the speed
constant: distance from haversineDistance, etaMinutes = round of
distance / speed * 60 (Math.round, i.e. round half up). -/
noncomputable def estimate (fromP toP : GeoPoint) (speed : ℝ) : Estimate :=
  { distanceKm := haversineDistance fromP toP
    etaMinutes := round (haversineDistance fromP toP / speed * 60) }

theorem hav_symm (p1 p2 : GeoPoint) : hav p1 p2 = hav p2 p1 := by
  unfold hav toRad
  have hs : ∀ u v : ℝ, Real.sin ((v - u) * Real.pi / 180 / 2) ^ 2 =
      Real.sin ((u - v) * Real.pi / 180 / 2) ^ 2 := by
    intro u v
    have hneg : (v - u) * Real.pi / 180 / 2 = -((u - v) * Real.pi / 180 / 2) := by ring
    rw [hneg, Real.sin_neg]
    ring
  rw [hs p1.lat p2.lat, hs p1.lon p2.lon, mul_comm (Real.cos (p1.lat * Real.pi / 180))]

theorem haversineDistance_symm (p1 p2 : GeoPoint) :
    haversineDistance p1 p2 = haversineDistance p2 p1 := by
  unfold haversineDistance
  rw [hav_symm]

/-- C8: the distance produced by estimate is symmetric in its two
points, exactly, over exact real arithmetic: swapping the two
coordinates negates dLat and dLon, and sin squared is even while the
cosine product commutes. -/
theorem estimate_symm (A B : GeoPoint) (s : ℝ) :
    (estimate A B s).distanceKm = (estimate B A s).distanceKm := by
  unfold estimate
  simp only
  rw [haversineDistance_symm]

/-- A JavaScript number for the purposes of special-value propagation:
either a finite value (idealized as an exact real) or one of the
IEEE-754 special values NaN, Infinity, -Infinity. Signed zeros are not
modelled. This type carries the haversine computation on malformed
input, where the source performs no validation. -/
inductive JsNum where
  | num (x : ℝ)
  | nan
  | inf
  | ninf

/-- IEEE-754 addition on special values; finite addition is exact. -/
noncomputable def JsNum.add : JsNum → JsNum → JsNum
  | nan, _ => nan
  | _, nan => nan
  | inf, ninf => nan
  | ninf, inf => nan
  | inf, _ => inf
  | _, inf => inf
  | ninf, _ => ninf
  | _, ninf => ninf
  | num x, num y => num (x + y)

/-- IEEE-754 subtraction on special values; finite subtraction exact. -/
noncomputable def JsNum.sub : JsNum → JsNum → JsNum
  | nan, _ => nan
  | _, nan => nan
  | inf, inf => nan
  | ninf, ninf => nan
  | inf, _ => inf
  | ninf, _ => ninf
  | _, inf => ninf
  | _, ninf => inf
  | num x, num y => num (x - y)

/-- IEEE-754 multiplication on special values; finite product exact. -/
noncomputable def JsNum.mul : JsNum → JsNum → JsNum
  | nan, _ => nan
  | _, nan => nan
  | inf, inf => inf
  | inf, ninf => ninf
  | ninf, inf => ninf
  | ninf, ninf => inf
  | inf, num y => if y = 0 then nan else if 0 < y then inf else ninf
  | num x, inf => if x = 0 then nan else if 0 < x then inf else ninf
  | ninf, num y => if y = 0 then nan else if 0 < y then ninf else inf
  | num x, ninf => if x = 0 then nan else if 0 < x then ninf else inf
  | num x, num y => num (x * y)

/-- IEEE-754 division on special values; finite quotient exact, with
division by zero giving a signed infinity (0/0 gives NaN). -/
noncomputable def JsNum.div : JsNum → JsNum → JsNum
  | nan, _ => nan
  | _, nan => nan
  | inf, inf => nan
  | inf, ninf => nan
  | ninf, inf => nan
  | ninf, ninf => nan
  | inf, num y => if 0 ≤ y then inf else ninf
  | ninf, num y => if 0 ≤ y then ninf else inf
  | num _, inf => num 0
  | num _, ninf => num 0
  | num x, num y =>
      if y = 0 then (if x = 0 then nan else if 0 < x then inf else ninf)
      else num (x / y)

/-- Math.sin: NaN on any non-finite argument. -/
noncomputable def JsNum.jsin : JsNum → JsNum
  | num x => num (Real.sin x)
  | _ => nan

/-- Math.cos: NaN on any non-finite argument. -/
noncomputable def JsNum.jcos : JsNum → JsNum
  | num x => num (Real.cos x)
  | _ => nan

/-- Math.sqrt: NaN on NaN or a negative argument, Infinity on
Infinity. -/
noncomputable def JsNum.jsqrt : JsNum → JsNum
  | nan => nan
  | inf => inf
  | ninf => nan
  | num x => if x < 0 then nan else num (Real.sqrt x)

/-- Math.atan2 on special values, per IEEE-754 (signed zeros not
modelled); finite arguments fall through to the real atan2. -/
noncomputable def JsNum.jatan2 : JsNum → JsNum → JsNum
  | nan, _ => nan
  | _, nan => nan
  | inf, inf => num (Real.pi / 4)
  | inf, ninf => num (3 * Real.pi / 4)
  | ninf, inf => num (-(Real.pi / 4))
  | ninf, ninf => num (-(3 * Real.pi / 4))
  | inf, num _ => num (Real.pi / 2)
  | ninf, num _ => num (-(Real.pi / 2))
  | num _, inf => num 0
  | num y, ninf => if 0 ≤ y then num Real.pi else num (-Real.pi)
  | num y, num x => num (atan2 y x)

/-- Math.round: nearest integer, half toward positive infinity;
special values pass through (round of NaN is NaN). -/
noncomputable def JsNum.jround : JsNum → JsNum
  | nan => nan
  | inf => inf
  | ninf => ninf
  | num x => num ((round x : ℤ) : ℝ)

/-- toRad of haversineDistance over JavaScript numbers:
(deg * Math.PI) / 180. -/
noncomputable def toRadF (deg : JsNum) : JsNum :=
  (deg.mul (JsNum.num Real.pi)).div (JsNum.num 180)

/-- haversineDistance over JavaScript numbers, line for line from the
source ([lon, lat] pairs; x ** 2 is x times x). -/
noncomputable def haversineDistanceF (p1 p2 : JsNum × JsNum) : JsNum :=
  let dLat := toRadF (p2.2.sub p1.2)
  let dLon := toRadF (p2.1.sub p1.1)
  let a := ((dLat.div (JsNum.num 2)).jsin.mul (dLat.div (JsNum.num 2)).jsin).add
    (((toRadF p1.2).jcos.mul (toRadF p2.2).jcos).mul
      ((dLon.div (JsNum.num 2)).jsin.mul (dLon.div (JsNum.num 2)).jsin))
  let c := (JsNum.num 2).mul (JsNum.jatan2 a.jsqrt (((JsNum.num 1).sub a).jsqrt))
  (JsNum.num 6371).mul c

/-- handleETA of MapPage over JavaScript numbers: distance from
haversineDistanceF, etaH = distKm / 55, etaMin = Math.round(etaH * 60);
returns the pair (distKm, etaMin) shown in the toast. The function is
total: the source contains no finiteness check and no error path. -/
noncomputable def handleETAF (driverPos sitePos : JsNum × JsNum) : JsNum × JsNum :=
  let distKm := haversineDistanceF driverPos sitePos
  let etaH := distKm.div (JsNum.num 55)
  let etaMin := (etaH.mul (JsNum.num 60)).jround
  (distKm, etaMin)

theorem JsNum.add_nan_left (x : JsNum) : JsNum.nan.add x = JsNum.nan := by
  cases x <;> rfl

theorem JsNum.add_nan_right (x : JsNum) : x.add JsNum.nan = JsNum.nan := by
  cases x <;> rfl

theorem JsNum.sub_nan_right (x : JsNum) : x.sub JsNum.nan = JsNum.nan := by
  cases x <;> rfl

theorem JsNum.mul_nan_left (x : JsNum) : JsNum.nan.mul x = JsNum.nan := by
  cases x <;> rfl

theorem JsNum.mul_nan_right (x : JsNum) : x.mul JsNum.nan = JsNum.nan := by
  cases x <;> rfl

theorem JsNum.div_nan_left (x : JsNum) : JsNum.nan.div x = JsNum.nan := by
  cases x <;> rfl

theorem JsNum.jatan2_nan_left (x : JsNum) : JsNum.nan.jatan2 x = JsNum.nan := by
  cases x <;> rfl

theorem JsNum.jsin_nan : JsNum.nan.jsin = JsNum.nan := rfl

theorem JsNum.jcos_nan : JsNum.nan.jcos = JsNum.nan := rfl

theorem JsNum.jsqrt_nan : JsNum.nan.jsqrt = JsNum.nan := rfl

theorem JsNum.jround_nan : JsNum.nan.jround = JsNum.nan := rfl

/-- C7: the code performs no validation of its coordinates. With a NaN
latitude in the driver position (and the hard-coded site position of
the source), handleETA does not fail with any error: it computes NaN
for both the distance and the ETA and displays them. -/
theorem handleETA_nan_propagates :
    handleETAF (JsNum.num (-84.51), JsNum.nan) (JsNum.num (-84.51), JsNum.num 39.10) =
      (JsNum.nan, JsNum.nan) := by
  simp only [handleETAF, haversineDistanceF, toRadF]
  simp only [JsNum.mul_nan_left, JsNum.mul_nan_right, JsNum.sub_nan_right,
    JsNum.div_nan_left, JsNum.add_nan_left, JsNum.add_nan_right, JsNum.jsin_nan,
    JsNum.jcos_nan, JsNum.jsqrt_nan, JsNum.jatan2_nan_left, JsNum.jround_nan]

end SevenStar
